import Mathlib

/-!
Verification of the SNP-interpretation scripts (dna-claude-analysis).

Python strings are embedded as `List Char`; Python dictionaries that are
only used through key lookup and ordered iteration are embedded as
association lists `List (List Char × α)`; the genome dictionary (only
ever accessed through `in` and `[·]`) is embedded as a function
`List Char → Option GenomeRecord`.  Each `def` below transcribes one
routine of the repository (the doc comment names the file and lines).
-/

set_option maxHeartbeats 1000000

/-- Python dictionary key lookup (`gt in table` / `table[gt]`) for the
static interpretation tables: tables are embedded as association lists
in source order; keys are unique in the sources, so first-match lookup
agrees with dictionary lookup. -/
def dictLookup {α : Type} (k : List Char) : List (List Char × α) → Option α
  | [] => none
  | p :: rest => if p.1 = k then some p.2 else dictLookup k rest

/-- `normalize_genotype` (identical in health_analysis.py:517-521,
sleep_chronotype_analysis.py:244-248 and the other scripts):
`''.join(sorted(genotype))` when the genotype has exactly two
characters, the genotype unchanged otherwise. -/
def normalize_genotype : List Char → List Char
  | [a, b] => if b < a then [b, a] else [a, b]
  | g => g

/-- Python `sorted` over the characters of a string of any length
(`"".join(sorted(genotype))` in vision_hearing_analysis.py:318):
insertion of one character into an ascending list. -/
def insertChar (c : Char) : List Char → List Char
  | [] => [c]
  | d :: rest => if c ≤ d then c :: d :: rest else d :: insertChar c rest

/-- Ascending stable character sort (Python `sorted`). -/
def sortChars (l : List Char) : List Char := l.foldr insertChar []

/-- The three-step reference lookup procedure, modelled from the spec
(spec.md §4.2): 1. exact match of the raw genotype; 2. if the genotype
has exactly two characters, match the alphabetically-sorted form;
3. if still unmatched and the genotype has two characters, match the
reversed string.  The result is the entry of the first step that
matches. -/
def refMatch {α : Type} (t : List (List Char × α)) (g : List Char) : Option α :=
  match dictLookup g t with
  | some e => some e
  | none =>
    if g.length = 2 then
      match dictLookup (normalize_genotype g) t with
      | some e => some e
      | none => dictLookup g.reverse t
    else none

/-- Genotype lookup of health_analysis.py:544-558 (`analyze_snp`): try
the raw then the normalized genotype, and if still unmatched and the
genotype has two characters, the reversed string.  The same code
appears in immunity, cognitive, detoxification, pain and reproductive
scripts. -/
def healthMatch {α : Type} (t : List (List Char × α)) (g : List Char) : Option α :=
  match dictLookup g t with
  | some e => some e
  | none =>
    match dictLookup (normalize_genotype g) t with
    | some e => some e
    | none => if g.length = 2 then dictLookup g.reverse t else none

/-- Second matching step of sleep_chronotype_analysis.py:279-284: scan
the table in order and take the first entry whose normalized key equals
the normalized observed genotype. -/
def sleepStep2 {α : Type} : List (List Char × α) → List Char → Option α
  | [], _ => none
  | p :: rest, g =>
    if normalize_genotype p.1 = normalize_genotype g then some p.2
    else sleepStep2 rest g

/-- Genotype lookup of sleep_chronotype_analysis.py:275-291
(`analyze_snp`): raw exact match, then a scan for a key with equal
normalized form, then the reversed string for two-character
genotypes. -/
def sleepMatch {α : Type} (t : List (List Char × α)) (g : List Char) : Option α :=
  match dictLookup g t with
  | some e => some e
  | none =>
    match sleepStep2 t g with
    | some e => some e
    | none => if g.length = 2 then dictLookup g.reverse t else none

/-- Genotype lookup of ancestry_analysis.py:209-213 (`analyze_ancestry`,
also physical_traits_analysis.py:313-316 and skin_analysis.py:395-397):
`for gt in [genotype, genotype[::-1] if len(genotype) == 2 else genotype]`. -/
def ancestryMatch {α : Type} (t : List (List Char × α)) (g : List Char) : Option α :=
  match dictLookup g t with
  | some e => some e
  | none => dictLookup (if g.length = 2 then g.reverse else g) t

/-- Genotype lookup of sports_fitness_analysis.py:276-280
(`analyze_snp`): `for gt in [raw, normalized, reversed-if-two-chars]`. -/
def sportsMatch {α : Type} (t : List (List Char × α)) (g : List Char) : Option α :=
  match dictLookup g t with
  | some e => some e
  | none =>
    match dictLookup (normalize_genotype g) t with
    | some e => some e
    | none => dictLookup (if g.length = 2 then g.reverse else g) t

/-- Genotype lookup of carrier_status_analysis.py:425-437
(`analyze_carriers`, before the fallback): raw, then normalized, then
reversed-if-two-characters. -/
def carrierMatch {α : Type} (t : List (List Char × α)) (g : List Char) : Option α :=
  match dictLookup g t with
  | some e => some e
  | none =>
    match dictLookup (normalize_genotype g) t with
    | some e => some e
    | none => dictLookup (if g.length = 2 then g.reverse else g) t

/-- Genotype lookup of vision_hearing_analysis.py:321-326
(`analyze_vision`): a single ordered scan taking the first table entry
whose key equals the raw genotype or the fully sorted genotype; there
is no reversed-string step. -/
def visionMatch {α : Type} : List (List Char × α) → List Char → Option α
  | [], _ => none
  | p :: rest, g =>
    if p.1 = g ∨ p.1 = sortChars g then some p.2 else visionMatch rest g

/-- Genotype lookup of longevity_analysis.py:522-528
(`analyze_longevity`): raw exact match then the normalized genotype;
there is no reversed-string step. -/
def longevityMatch {α : Type} (t : List (List Char × α)) (g : List Char) : Option α :=
  match dictLookup g t with
  | some e => some e
  | none => dictLookup (normalize_genotype g) t

/-- Characters removed by Python `str.strip()` with no argument
(ASCII whitespace). -/
def isPySpace (c : Char) : Bool :=
  c == ' ' || c == '\t' || c == '\n' || c == '\r' || c == '\x0b' || c == '\x0c'

/-- Python `line.strip()`: drop whitespace from both ends. -/
def strip (l : List Char) : List Char :=
  ((l.dropWhile isPySpace).reverse.dropWhile isPySpace).reverse

/-- Python `s.split('\t')`: split on every tab, keeping empty fields;
the empty string yields one empty field. -/
def splitTab : List Char → List (List Char)
  | [] => [[]]
  | c :: rest =>
    match splitTab rest with
    | [] => [[]]
    | f :: fs => if c = '\t' then [] :: f :: fs else (c :: f) :: fs

/-- The per-SNP value stored by `load_genome`
(health_analysis.py:508-513): chromosome, position and genotype, all
kept as strings exactly as in the code. -/
structure GenomeRecord where
  chromosome : List Char
  position : List Char
  genotype : List Char
deriving DecidableEq

/-- One iteration of the `load_genome` loop
(health_analysis.py:502-513): a line starting with `#` is skipped, the
stripped line is split on tabs, a line with fewer than 4 fields is
skipped, and otherwise fields 1-4 become the key and the record. -/
def parseLine (line : List Char) : Option (List Char × GenomeRecord) :=
  if line.head? = some '#' then none
  else
    match splitTab (strip line) with
    | rsid :: chrom :: pos :: gt :: _ =>
      some (rsid, { chromosome := chrom, position := pos, genotype := gt })
    | _ => none

/-- The genome dictionary: it is only ever read through `snp_id in
genome` and `genome[snp_id]`, so it is embedded as a key-to-record
function. -/
abbrev Genome : Type := List Char → Option GenomeRecord

/-- Python `genome[rsid] = record`. -/
def dictUpdate (g : Genome) (k : List Char) (r : GenomeRecord) : Genome :=
  fun q => if q = k then some r else g q

/-- The empty dictionary `genome = {}`. -/
def emptyGenome : Genome := fun _ => none

/-- Effect of one input line on the accumulated genome dictionary. -/
def loadStep (g : Genome) (line : List Char) : Genome :=
  match parseLine line with
  | some (k, r) => dictUpdate g k r
  | none => g

/-- `load_genome` starting from a given dictionary. -/
def loadGenomeFrom (g : Genome) (lines : List (List Char)) : Genome :=
  lines.foldl loadStep g

/-- `load_genome` (health_analysis.py:499-514, identical in the other
scripts with a four-field record): fold the loop body over the lines of
the input file. -/
def load_genome (lines : List (List Char)) : Genome :=
  loadGenomeFrom emptyGenome lines

/-- Python `pat in s` on strings: substring containment
(`'del' in raw_genotype.lower()`, `risk in raw_genotype` in
carrier_status_analysis.py:440-445). -/
def containsSub (pat : List Char) : List Char → Bool
  | [] => pat.isEmpty
  | c :: rest => pat.isPrefixOf (c :: rest) || containsSub pat rest

/-- Scanner for Python `s.count(pat)` with a non-empty pattern: count
non-overlapping occurrences left to right; the second argument is the
number of characters still to skip after a match. -/
def countSubAux (pat : List Char) : List Char → Nat → Nat
  | [], _ => 0
  | _ :: rest, Nat.succ skp => countSubAux pat rest skp
  | c :: rest, 0 =>
    if pat.isPrefixOf (c :: rest) then 1 + countSubAux pat rest (pat.length - 1)
    else countSubAux pat rest 0

/-- Python `s.count(pat)` (`raw_genotype.count(risk)` in
carrier_status_analysis.py:441). -/
def countSub (pat s : List Char) : Nat :=
  if pat = [] then s.length + 1 else countSubAux pat s 0

namespace Health

/-- The static per-SNP metadata of HEALTH_SNPS entries
(health_analysis.py tables): gene, description, risk allele and the
genotype-to-(risk level, interpretation) mapping. -/
structure SnpInfo where
  gene : List Char
  description : List Char
  risk_allele : List Char
  interpretation : List (List Char × (List Char × List Char))
deriving DecidableEq

/-- The result dictionary built by `analyze_snp`
(health_analysis.py:524-560); `chromosome` and `position` are only set
when the SNP is found, and `risk_level`/`interpretation` stay `none`
when no genotype form matches. -/
structure Finding where
  snp_id : List Char
  gene : List Char
  description : List Char
  risk_allele : List Char
  found : Bool
  genotype : Option (List Char)
  chromosome : Option (List Char)
  position : Option (List Char)
  risk_level : Option (List Char)
  interpretation : Option (List Char)
deriving DecidableEq

/-- `analyze_snp` of health_analysis.py:524-560. -/
def analyze_snp (snp_id : List Char) (snp_info : SnpInfo) (genome_data : Genome) :
    Finding :=
  match genome_data snp_id with
  | none =>
    { snp_id := snp_id, gene := snp_info.gene, description := snp_info.description,
      risk_allele := snp_info.risk_allele, found := false, genotype := none,
      chromosome := none, position := none, risk_level := none, interpretation := none }
  | some r =>
    let m := healthMatch snp_info.interpretation r.genotype
    { snp_id := snp_id, gene := snp_info.gene, description := snp_info.description,
      risk_allele := snp_info.risk_allele, found := true, genotype := some r.genotype,
      chromosome := some r.chromosome, position := some r.position,
      risk_level := Option.map Prod.fst m, interpretation := Option.map Prod.snd m }

/-- Python f-string rendering of a value that may be `None`. -/
def optStr : Option (List Char) → List Char
  | some s => s
  | none => ['N', 'o', 'n', 'e']

/-- Python `x or default` on an optional string: the default replaces
both `None` and the empty string. -/
def pyOr (o : Option (List Char)) (d : List Char) : List Char :=
  match o with
  | some s => if s = [] then d else s
  | none => d

/-- One row of the detailed-results table of `generate_category_report`
(health_analysis.py:696-706): a found SNP renders its genotype, risk
label (`r['risk_level'] or 'н/д'`) and interpretation
(`r['interpretation'] or 'Нет данных'`); an absent SNP renders the
fixed not-found row. -/
def renderRow (r : Finding) : List Char :=
  if r.found then
    ("| ".data ++ r.snp_id ++ " | ".data ++ r.gene ++ " | **".data ++
        optStr r.genotype ++ "** | ".data ++ pyOr r.risk_level "н/д".data ++
        " | ".data) ++
      pyOr r.interpretation "Нет данных".data ++ " |".data
  else
    "| ".data ++ r.snp_id ++ " | ".data ++ r.gene ++
      " | - | - | Не найден в геноме |".data

/-- The detailed-results rows of `generate_category_report`: one row is
appended per Finding, in list order (health_analysis.py:696-706). -/
def renderRows (rs : List Finding) : List (List Char) := rs.map renderRow

end Health

namespace Sleep

/-- The static per-SNP metadata of SLEEP_SNPS entries
(sleep_chronotype_analysis.py tables). -/
structure SnpInfo where
  gene : List Char
  description : List Char
  risk_allele : List Char
  interpretation : List (List Char × (List Char × List Char))
deriving DecidableEq

/-- The result dictionary built by `analyze_snp`
(sleep_chronotype_analysis.py:251-291); the category tag field is
called `status` in this script. -/
structure Finding where
  snp_id : List Char
  gene : List Char
  description : List Char
  risk_allele : List Char
  found : Bool
  genotype : Option (List Char)
  chromosome : Option (List Char)
  position : Option (List Char)
  status : Option (List Char)
  interpretation : Option (List Char)
deriving DecidableEq

/-- `analyze_snp` of sleep_chronotype_analysis.py:251-291. -/
def analyze_snp (snp_id : List Char) (snp_info : SnpInfo) (genome_data : Genome) :
    Finding :=
  match genome_data snp_id with
  | none =>
    { snp_id := snp_id, gene := snp_info.gene, description := snp_info.description,
      risk_allele := snp_info.risk_allele, found := false, genotype := none,
      chromosome := none, position := none, status := none, interpretation := none }
  | some r =>
    let m := sleepMatch snp_info.interpretation r.genotype
    { snp_id := snp_id, gene := snp_info.gene, description := snp_info.description,
      risk_allele := snp_info.risk_allele, found := true, genotype := some r.genotype,
      chromosome := some r.chromosome, position := some r.position,
      status := Option.map Prod.fst m, interpretation := Option.map Prod.snd m }

end Sleep

namespace Carrier

/-- The static per-SNP metadata of CARRIER_SNPS entries
(carrier_status_analysis.py tables). -/
structure SnpInfo where
  gene : List Char
  mutation : List Char
  description : List Char
  risk_allele : List Char
  interpretation : List (List Char × (List Char × List Char))
deriving DecidableEq

/-- The per-SNP result dictionary built inside `analyze_carriers`
(carrier_status_analysis.py:401-455). -/
structure Finding where
  snp_id : List Char
  gene : List Char
  mutation : List Char
  description : List Char
  risk_allele : List Char
  found : Bool
  genotype : Option (List Char)
  chromosome : Option (List Char)
  position : Option (List Char)
  carrier_status : Option (List Char)
  interpretation : Option (List Char)
deriving DecidableEq

/-- The per-SNP result before an interpretation is attached, for a
present SNP (carrier_status_analysis.py:401-421). -/
def foundBase (snp_id : List Char) (snp_info : SnpInfo) (r : GenomeRecord) : Finding :=
  { snp_id := snp_id, gene := snp_info.gene, mutation := snp_info.mutation,
    description := snp_info.description, risk_allele := snp_info.risk_allele,
    found := true, genotype := some r.genotype, chromosome := some r.chromosome,
    position := some r.position, carrier_status := none, interpretation := none }

/-- The loop body of `analyze_carriers` for one SNP
(carrier_status_analysis.py:401-455): the three-step table lookup, and
when it fails, the default interpretation from the risk allele: a
deletion marker gives `possible_carrier`, a risk-allele count of 2
gives `affected`, any other positive count gives `carrier`, and absence
of the risk allele gives `normal`. -/
def analyze_carrier_snp (snp_id : List Char) (snp_info : SnpInfo)
    (genome : Genome) : Finding :=
  match genome snp_id with
  | none =>
    { snp_id := snp_id, gene := snp_info.gene, mutation := snp_info.mutation,
      description := snp_info.description, risk_allele := snp_info.risk_allele,
      found := false, genotype := none, chromosome := none, position := none,
      carrier_status := none, interpretation := none }
  | some r =>
    match carrierMatch snp_info.interpretation r.genotype with
    | some st =>
      { foundBase snp_id snp_info r with
          carrier_status := some st.1, interpretation := some st.2 }
    | none =>
      if r.genotype = "--".data ∨
          containsSub "del".data (r.genotype.map Char.toLower) = true then
        { foundBase snp_id snp_info r with
            carrier_status := some "possible_carrier".data,
            interpretation := some "Делеция обнаружена - требуется подтверждение".data }
      else if containsSub snp_info.risk_allele r.genotype then
        if countSub snp_info.risk_allele r.genotype = 2 then
          { foundBase snp_id snp_info r with
              carrier_status := some "affected".data,
              interpretation :=
                some ("Гомозигота по риск-аллелю ".data ++ snp_info.risk_allele) }
        else
          { foundBase snp_id snp_info r with
              carrier_status := some "carrier".data,
              interpretation :=
                some ("Гетерозигота - носитель аллеля ".data ++ snp_info.risk_allele) }
      else
        { foundBase snp_id snp_info r with
            carrier_status := some "normal".data,
            interpretation := some "Риск-аллель не обнаружен".data }

end Carrier

namespace Sports

/-- The per-SNP result dictionary built by `analyze_snp`
(sports_fitness_analysis.py:253-281); the category tag field is called
`phenotype` in this script. -/
structure Finding where
  snp_id : List Char
  gene : List Char
  description : List Char
  found : Bool
  genotype : Option (List Char)
  chromosome : Option (List Char)
  position : Option (List Char)
  phenotype : Option (List Char)
  interpretation : Option (List Char)
deriving DecidableEq

/-- Python truthiness of `r['phenotype']`: `None` and the empty string
are falsy (sports_fitness_analysis.py:316). -/
def truthy (o : Option (List Char)) : Bool :=
  match o with
  | some s => !s.isEmpty
  | none => false

/-- The `scoring` dictionary lookup with default 0
(sports_fitness_analysis.py:308-319): high = 3, moderate = 2, low = 1,
anything else 0. -/
def scoring (p : List Char) : Nat :=
  if p = "high".data then 3
  else if p = "moderate".data then 2
  else if p = "low".data then 1
  else 0

/-- The record returned by `calculate_vo2max_potential` when at least
one endurance marker was counted; the real-valued percentage is
embedded as a rational. -/
structure Vo2Result where
  score : Nat
  max_score : Nat
  percentage : Rat
  level : List Char
  description : List Char
  markers_found : Nat
deriving DecidableEq

/-- `calculate_vo2max_potential` (sports_fitness_analysis.py:301-346),
applied to `results.get('endurance', [])`: count every finding with
`found` and a truthy phenotype, add 3 to `max_score` and the scoring
weight to `score` for each, return `None` when nothing was counted,
and otherwise the percentage `score / max_score * 100` with its level
text. -/
def calculate_vo2max_potential (endurance_results : List Finding) :
    Option Vo2Result :=
  let counted := endurance_results.filter fun r => r.found && truthy r.phenotype
  let markers_found := counted.length
  let max_score := 3 * markers_found
  let score := (counted.map fun r => scoring (Option.getD r.phenotype [])).sum
  if markers_found = 0 then none
  else
    let percentage : Rat := (score : Rat) / (max_score : Rat) * 100
    if percentage ≥ 80 then
      some { score := score, max_score := max_score, percentage := percentage,
             level := "Отличный".data,
             description := "Высокий генетический потенциал для развития VO2max. Хорошо откликаетесь на аэробные тренировки.".data,
             markers_found := markers_found }
    else if percentage ≥ 60 then
      some { score := score, max_score := max_score, percentage := percentage,
             level := "Хороший".data,
             description := "Хороший потенциал VO2max. При правильных тренировках можно достичь высоких показателей.".data,
             markers_found := markers_found }
    else if percentage ≥ 40 then
      some { score := score, max_score := max_score, percentage := percentage,
             level := "Средний".data,
             description := "Средний потенциал. Прогресс возможен, но может потребоваться больше времени.".data,
             markers_found := markers_found }
    else
      some { score := score, max_score := max_score, percentage := percentage,
             level := "Ниже среднего".data,
             description := "Генетически менее предрасположены к высоким аэробным показателям. Рекомендуется фокус на силовые виды.".data,
             markers_found := markers_found }

end Sports

/-- A one-entry interpretation table whose single key is stored in
non-alphabetical order, as several repository tables do (for example
the `"GA"` keys of carrier_status_analysis.py:50 and
health tables). -/
def tblC3 : List (List Char × (List Char × List Char)) :=
  [("GA".data, ("high".data, "risk text".data))]

/-- A second one-entry table with a non-alphabetical key, used to
compare the longevity/vision lookups with the reference procedure. -/
def tblC4 : List (List Char × (List Char × List Char)) :=
  [("GA".data, ("info".data, "entry".data))]

/-- The rs334 (sickle cell) entry of CARRIER_SNPS
(carrier_status_analysis.py:62-73), transcribed verbatim. -/
def rs334Info : Carrier.SnpInfo :=
  { gene := "HBB".data,
    mutation := "HbS (p.Glu6Val)".data,
    description := "Мутация серповидноклеточной анемии".data,
    risk_allele := "T".data,
    interpretation :=
      [("AA".data, ("normal".data, "Норма - нормальный гемоглобин HbA".data)),
       ("AT".data, ("carrier".data, "Носитель HbS - серповидноклеточный признак (защита от малярии)".data)),
       ("TA".data, ("carrier".data, "Носитель HbS - серповидноклеточный признак (защита от малярии)".data)),
       ("TT".data, ("affected".data, "Серповидноклеточная анемия (HbSS) - требуется медицинское наблюдение".data))] }

/-- A genome carrying rs334 with the genotype `CC`, which matches none
of the table keys in any of the three tried forms. -/
def genomeCC : Genome := fun id =>
  if id = "rs334".data then
    some { chromosome := "11".data, position := "5248232".data, genotype := "CC".data }
  else none

/-- A genome carrying rs334 with the genotype `TTT` (three occurrences
of the risk allele `T`). -/
def genomeTTT : Genome := fun id =>
  if id = "rs334".data then
    some { chromosome := "11".data, position := "5248232".data, genotype := "TTT".data }
  else none

/-- An input line with five tab-separated fields. -/
def lineFive : List Char := "a\tb\tc\td\te".data

/-- A comment input line. -/
def lineHash : List Char := "# comment line".data

/-- A well-formed four-field input line (the rs4680 example of
spec.md §8). -/
def lineGood : List Char := "rs4680\tchr22\t19951271\tAG".data

/-- A first line for rs1. -/
def lineAA : List Char := "rs1\tchr1\t100\tAA".data

/-- A second line for the same id rs1 with a different genotype. -/
def lineCC : List Char := "rs1\tchr1\t100\tCC".data

/-- The rs4680 (COMT) interpretation table of spec.md §8, as a
HEALTH-style SnpInfo. -/
def healthInfoW : Health.SnpInfo :=
  { gene := "COMT".data,
    description := "Val158Met".data,
    risk_allele := "A".data,
    interpretation :=
      [("AA".data, ("info".data, "Met/Met".data)),
       ("AG".data, ("info".data, "Val/Met".data)),
       ("GG".data, ("info".data, "Val/Val".data))] }

/-- The same table in the sleep script's SnpInfo shape. -/
def sleepInfoW : Sleep.SnpInfo :=
  { gene := "COMT".data,
    description := "Val158Met".data,
    risk_allele := "A".data,
    interpretation :=
      [("AA".data, ("info".data, "Met/Met".data)),
       ("AG".data, ("info".data, "Val/Met".data)),
       ("GG".data, ("info".data, "Val/Val".data))] }

/-- A genome carrying rs4680 with genotype `AG` (spec.md §8). -/
def genomeW : Genome := fun id =>
  if id = "rs4680".data then
    some { chromosome := "chr22".data, position := "19951271".data, genotype := "AG".data }
  else none

/-- A found Finding with an interpretation, for the report-rendering
witness. -/
def findingW : Health.Finding :=
  { snp_id := "rs4680".data, gene := "COMT".data, description := "Val158Met".data,
    risk_allele := "A".data, found := true, genotype := some "AG".data,
    chromosome := some "chr22".data, position := some "19951271".data,
    risk_level := some "info".data, interpretation := some "Val/Met".data }

/-- A one-element endurance result list with a counted `high` marker. -/
def enduranceW : List Sports.Finding :=
  [{ snp_id := "rs8192678".data, gene := "PPARGC1A".data, description := "VO2max".data,
     found := true, genotype := some "GG".data, chromosome := some "4".data,
     position := some "23815662".data, phenotype := some "high".data,
     interpretation := some "Высокий потенциал VO2max".data }]

lemma dictLookup_eq_none_iff {α : Type} (k : List Char) (t : List (List Char × α)) :
    dictLookup k t = none ↔ ∀ p ∈ t, p.1 ≠ k := by
  induction t with
  | nil =>
    constructor
    · intro _ p hp
      exact absurd hp (List.not_mem_nil p)
    · intro _
      rfl
  | cons p rest ih =>
    simp only [dictLookup]
    by_cases h : p.1 = k
    · rw [if_pos h]
      constructor
      · intro hc
        exact absurd hc (by simp)
      · intro hall
        exact absurd h (hall p (List.mem_cons_self p rest))
    · rw [if_neg h, ih]
      constructor
      · intro hall q hq
        rcases List.mem_cons.mp hq with rfl | hq'
        · exact h
        · exact hall q hq'
      · intro hall q hq
        exact hall q (List.mem_cons_of_mem p hq)

lemma length_normalize (g : List Char) :
    (normalize_genotype g).length = g.length := by
  match g with
  | [] => rfl
  | [a] => rfl
  | [a, b] =>
    by_cases h : b < a <;> simp [normalize_genotype, h]
  | a :: b :: c :: rest => rfl

lemma normalize_of_length_ne (g : List Char) (h : g.length ≠ 2) :
    normalize_genotype g = g := by
  match g with
  | [] => rfl
  | [a] => rfl
  | [a, b] => exact absurd rfl h
  | a :: b :: c :: rest => rfl

lemma normalize_self_or_reverse (g : List Char) (h : g.length = 2) :
    normalize_genotype g = g ∨ normalize_genotype g = g.reverse := by
  match g with
  | [a, b] =>
    by_cases hba : b < a
    · right; simp [normalize_genotype, hba]
    · left; simp [normalize_genotype, hba]

lemma exists_pair_of_length_two (g : List Char) (h : g.length = 2) :
    ∃ a b, g = [a, b] := by
  match g with
  | [a, b] => exact ⟨a, b, rfl⟩

lemma normalize_pair (a b : Char) :
    normalize_genotype [a, b] = if b < a then [b, a] else [a, b] := rfl

lemma reverse_pair (a b : Char) : ([a, b] : List Char).reverse = [b, a] := rfl

lemma normalizeG_eq_iff (g k : List Char) (h : g.length = 2) :
    normalize_genotype k = normalize_genotype g ↔ k = g ∨ k = g.reverse := by
  obtain ⟨a, b, rfl⟩ := exists_pair_of_length_two g h
  by_cases hk : k.length = 2
  · obtain ⟨c, d, rfl⟩ := exists_pair_of_length_two k hk
    rw [normalize_pair, normalize_pair, reverse_pair]
    by_cases hdc : d < c <;> by_cases hba : b < a
    · rw [if_pos hdc, if_pos hba]
      simp only [List.cons.injEq, and_true]
      constructor
      · rintro ⟨rfl, rfl⟩
        left
        exact ⟨rfl, rfl⟩
      · rintro (⟨rfl, rfl⟩ | ⟨rfl, rfl⟩)
        · exact ⟨rfl, rfl⟩
        · exact absurd hdc (lt_asymm hba)
    · rw [if_pos hdc, if_neg hba]
      simp only [List.cons.injEq, and_true]
      constructor
      · rintro ⟨rfl, rfl⟩
        right
        exact ⟨rfl, rfl⟩
      · rintro (⟨rfl, rfl⟩ | ⟨rfl, rfl⟩)
        · exact absurd hdc hba
        · exact ⟨rfl, rfl⟩
    · rw [if_neg hdc, if_pos hba]
      simp only [List.cons.injEq, and_true]
      constructor
      · rintro ⟨rfl, rfl⟩
        right
        exact ⟨rfl, rfl⟩
      · rintro (⟨rfl, rfl⟩ | ⟨rfl, rfl⟩)
        · exact absurd hba hdc
        · exact ⟨rfl, rfl⟩
    · rw [if_neg hdc, if_neg hba]
      simp only [List.cons.injEq, and_true]
      constructor
      · rintro ⟨rfl, rfl⟩
        left
        exact ⟨rfl, rfl⟩
      · rintro (⟨rfl, rfl⟩ | ⟨h1, h2⟩)
        · exact ⟨rfl, rfl⟩
        · rw [h1, h2] at hdc
          have hab : a = b := le_antisymm (not_lt.mp hba) (not_lt.mp hdc)
          exact ⟨h1.trans hab.symm, h2.trans hab⟩
  · have h1 : (normalize_genotype k).length = k.length := length_normalize k
    have h2 : (normalize_genotype [a, b]).length = 2 := by
      simpa using length_normalize [a, b]
    constructor
    · intro he
      exfalso
      rw [he, h2] at h1
      exact hk h1.symm
    · rintro (rfl | rfl)
      · exact absurd rfl hk
      · exact absurd (by simp) hk

lemma dictLookup_cons_rest {α : Type} (k : List Char) (p : List Char × α)
    (rest : List (List Char × α)) (hg : dictLookup k (p :: rest) = none) :
    p.1 ≠ k ∧ dictLookup k rest = none := by
  constructor
  · exact ((dictLookup_eq_none_iff k (p :: rest)).mp hg) p (List.mem_cons_self p rest)
  · rw [dictLookup_eq_none_iff]
    intro q hq
    exact ((dictLookup_eq_none_iff k (p :: rest)).mp hg) q (List.mem_cons_of_mem p hq)

lemma healthMatch_eq_refMatch {α : Type} (t : List (List Char × α)) (g : List Char) :
    healthMatch t g = refMatch t g := by
  unfold healthMatch refMatch
  cases hg : dictLookup g t with
  | some e => rfl
  | none =>
    by_cases hl : g.length = 2
    · rw [if_pos hl, if_pos hl]
    · rw [if_neg hl, if_neg hl, normalize_of_length_ne g hl, hg]

lemma sleepStep2_eq {α : Type} (t : List (List Char × α)) (g : List Char)
    (hg : dictLookup g t = none) :
    sleepStep2 t g = if g.length = 2 then dictLookup g.reverse t else none := by
  by_cases hl : g.length = 2
  · rw [if_pos hl]
    induction t with
    | nil => rfl
    | cons p rest ih =>
      obtain ⟨hne, hrest⟩ := dictLookup_cons_rest g p rest hg
      simp only [sleepStep2, dictLookup]
      by_cases hpr : p.1 = g.reverse
      · have hcond : normalize_genotype p.1 = normalize_genotype g :=
          (normalizeG_eq_iff g p.1 hl).mpr (Or.inr hpr)
        rw [if_pos hcond, if_pos hpr]
      · have hcond : ¬ normalize_genotype p.1 = normalize_genotype g := by
          rw [normalizeG_eq_iff g p.1 hl]
          rintro (h | h)
          · exact hne h
          · exact hpr h
        rw [if_neg hcond, if_neg hpr]
        exact ih hrest
  · rw [if_neg hl]
    induction t with
    | nil => rfl
    | cons p rest ih =>
      obtain ⟨hne, hrest⟩ := dictLookup_cons_rest g p rest hg
      have hcond : ¬ normalize_genotype p.1 = normalize_genotype g := by
        rw [normalize_of_length_ne g hl]
        intro he
        by_cases hp2 : p.1.length = 2
        · have hlen := length_normalize p.1
          rw [he] at hlen
          omega
        · rw [normalize_of_length_ne p.1 hp2] at he
          exact hne he
      simp only [sleepStep2]
      rw [if_neg hcond]
      exact ih hrest

lemma sleepMatch_eq_refMatch {α : Type} (t : List (List Char × α)) (g : List Char) :
    sleepMatch t g = refMatch t g := by
  unfold sleepMatch refMatch
  cases hg : dictLookup g t with
  | some e => rfl
  | none =>
    rw [sleepStep2_eq t g hg]
    by_cases hl : g.length = 2
    · rw [if_pos hl, if_pos hl]
      rcases normalize_self_or_reverse g hl with hn | hn
      · rw [hn, hg]
        cases dictLookup g.reverse t <;> rfl
      · rw [hn]
    · rw [if_neg hl, if_neg hl]

lemma ancestryMatch_eq_refMatch {α : Type} (t : List (List Char × α)) (g : List Char) :
    ancestryMatch t g = refMatch t g := by
  unfold ancestryMatch refMatch
  cases hg : dictLookup g t with
  | some e => rfl
  | none =>
    by_cases hl : g.length = 2
    · rw [if_pos hl, if_pos hl]
      rcases normalize_self_or_reverse g hl with hn | hn
      · rw [hn, hg]
      · rw [hn]
        cases dictLookup g.reverse t <;> rfl
    · rw [if_neg hl, if_neg hl, hg]

lemma sportsMatch_eq_refMatch {α : Type} (t : List (List Char × α)) (g : List Char) :
    sportsMatch t g = refMatch t g := by
  unfold sportsMatch refMatch
  cases hg : dictLookup g t with
  | some e => rfl
  | none =>
    by_cases hl : g.length = 2
    · rw [if_pos hl, if_pos hl]
    · rw [if_neg hl, if_neg hl, normalize_of_length_ne g hl, hg]

lemma carrierMatch_eq_refMatch {α : Type} (t : List (List Char × α)) (g : List Char) :
    carrierMatch t g = refMatch t g := by
  unfold carrierMatch refMatch
  cases hg : dictLookup g t with
  | some e => rfl
  | none =>
    by_cases hl : g.length = 2
    · rw [if_pos hl, if_pos hl]
    · rw [if_neg hl, if_neg hl, normalize_of_length_ne g hl, hg]

lemma parseLine_eq_none_iff (l : List Char) :
    parseLine l = none ↔
      (l.head? = some '#' ∨ (splitTab (strip l)).length < 4) := by
  unfold parseLine
  by_cases hh : l.head? = some '#'
  · rw [if_pos hh]
    constructor
    · intro _
      exact Or.inl hh
    · intro _
      rfl
  · rw [if_neg hh]
    rcases hsp : splitTab (strip l) with _ | ⟨f1, _ | ⟨f2, _ | ⟨f3, _ | ⟨f4, rest⟩⟩⟩⟩
    · constructor
      · intro _
        right
        simp
      · intro _
        rfl
    · constructor
      · intro _
        right
        simp
      · intro _
        rfl
    · constructor
      · intro _
        right
        simp
      · intro _
        rfl
    · constructor
      · intro _
        right
        simp
      · intro _
        rfl
    · constructor
      · intro hc
        exact absurd hc (by simp)
      · rintro (hc | hc)
        · exact absurd hc hh
        · exact absurd hc (by simp)

lemma parseLine_of_fields (l f1 f2 f3 f4 : List Char) (rest : List (List Char))
    (hh : l.head? ≠ some '#')
    (hsp : splitTab (strip l) = f1 :: f2 :: f3 :: f4 :: rest) :
    parseLine l = some (f1, ⟨f2, f3, f4⟩) := by
  unfold parseLine
  rw [if_neg hh, hsp]

lemma loadGenomeFrom_cons (g : Genome) (l : List Char) (lines : List (List Char)) :
    loadGenomeFrom g (l :: lines) = loadGenomeFrom (loadStep g l) lines := rfl

lemma loadGenomeFrom_skip (g : Genome) (l : List Char) (lines : List (List Char))
    (hp : parseLine l = none) :
    loadGenomeFrom g (l :: lines) = loadGenomeFrom g lines := by
  rw [loadGenomeFrom_cons]
  unfold loadStep
  rw [hp]

lemma loadGenomeFrom_untouched (g : Genome) (lines : List (List Char)) (id : List Char)
    (h : ∀ l ∈ lines, ∀ r', parseLine l ≠ some (id, r')) :
    loadGenomeFrom g lines id = g id := by
  induction lines generalizing g with
  | nil => rfl
  | cons l rest ih =>
    rw [loadGenomeFrom_cons]
    rw [ih (loadStep g l) fun q hq r' => h q (List.mem_cons_of_mem l hq) r']
    unfold loadStep
    cases hp : parseLine l with
    | none => rfl
    | some kr =>
      obtain ⟨k, r⟩ := kr
      have hk : k ≠ id := by
        intro he
        subst he
        exact h l (List.mem_cons_self l rest) r hp
      have hik : ¬ id = k := fun he => hk (Eq.symm he)
      show dictUpdate g k r id = g id
      unfold dictUpdate
      rw [if_neg hik]

/-- C1: for every interpretation table and observed genotype, the SNP
interpreter of health_analysis.py and sleep_chronotype_analysis.py
returns the entry of the first matching step of the reference order:
raw exact match, then (for two-character genotypes) the
alphabetically-sorted form, then (still for two-character genotypes)
the reversed string. -/
theorem C1_interpreter_match_order {α : Type} (t : List (List Char × α)) (g : List Char) :
    healthMatch t g = refMatch t g ∧ sleepMatch t g = refMatch t g :=
  ⟨healthMatch_eq_refMatch t g, sleepMatch_eq_refMatch t g⟩

/-- C3 counterexample: the table defines only the key `GA`; looking up
`GA` through the vision interpreter succeeds, but looking up the
transposed form `AG` yields nothing (and likewise through the
longevity interpreter), because these two scripts have no
reversed-string step, so the claimed transposition property fails for
them. -/
theorem C3_counterexample :
    visionMatch tblC3 "GA".data = some ("high".data, "risk text".data) ∧
    visionMatch tblC3 "AG".data = none ∧
    longevityMatch tblC3 "AG".data = none ∧
    longevityMatch tblC3 "GA".data = some ("high".data, "risk text".data) := by
  decide

/-- C3 amended: for the interpreters that implement the full
three-step lookup (health-style `healthMatch`), a two-character key
`xy` present in the table is found when looking up the transposed form
`yx`, provided the table has no explicit `yx` entry; and an explicit
`yx` entry takes precedence by exact-match-first ordering.  The
vision and longevity lookups lack the reversed-string step and do not
have this property. -/
theorem C3_amended_transpose {α : Type} (t : List (List Char × α)) (x y : Char) (e : α) :
    (dictLookup [x, y] t = some e → dictLookup [y, x] t = none →
      healthMatch t [y, x] = some e) ∧
    (∀ f, dictLookup [y, x] t = some f → healthMatch t [y, x] = some f) := by
  constructor
  · intro hxy hyx
    unfold healthMatch
    rw [hyx]
    have hnorm : normalize_genotype [y, x] = if x < y then [x, y] else [y, x] :=
      normalize_pair y x
    by_cases hlt : x < y
    · rw [hnorm, if_pos hlt, hxy]
    · rw [hnorm, if_neg hlt, hyx]
      rw [if_pos (show ([y, x] : List Char).length = 2 from rfl)]
      rw [reverse_pair]
      exact hxy
  · intro f hf
    unfold healthMatch
    rw [hf]

/-- C3 witness: with the table `[("AG", 0)]`, the key `AG` is present,
`GA` is absent, and the health interpreter finds the `AG` entry when
looking up `GA`. -/
theorem C3_witness :
    dictLookup "AG".data [("AG".data, 0)] = some 0 ∧
    dictLookup "GA".data [("AG".data, 0)] = none ∧
    healthMatch [("AG".data, 0)] "GA".data = some 0 :=
  ⟨by decide, by decide,
    (C3_amended_transpose [("AG".data, 0)] 'A' 'G' 0).1 (by decide) (by decide)⟩

/-- C4 counterexample: on the table with the single key `GA` and the
observed genotype `AG`, the reference three-step procedure matches via
the reversed string, but the longevity and vision lookups return
nothing, so not every script's lookup computes the reference
function. -/
theorem C4_counterexample :
    longevityMatch tblC4 "AG".data = none ∧
    visionMatch tblC4 "AG".data = none ∧
    refMatch tblC4 "AG".data = some ("info".data, "entry".data) := by
  decide

/-- C4 amended: the genotype lookups of the health-style scripts
(health, immunity, cognitive, detoxification, pain, reproductive), of
the sleep script, of the ancestry-style scripts (ancestry, physical
traits, skin), of the sports script and of the carrier script all
compute exactly the reference three-step procedure; the vision and
longevity lookups omit the reversed-string step and differ from it. -/
theorem C4_amended_equivalence {α : Type} (t : List (List Char × α)) (g : List Char) :
    healthMatch t g = refMatch t g ∧ sleepMatch t g = refMatch t g ∧
    ancestryMatch t g = refMatch t g ∧ sportsMatch t g = refMatch t g ∧
    carrierMatch t g = refMatch t g :=
  ⟨healthMatch_eq_refMatch t g, sleepMatch_eq_refMatch t g,
   ancestryMatch_eq_refMatch t g, sportsMatch_eq_refMatch t g,
   carrierMatch_eq_refMatch t g⟩

/-- C2 counterexample: rs334 is present in the genome with genotype
`CC`, which matches none of the three tried forms against its table,
yet the carrier script's fallback sets a non-null carrier status and
interpretation, contradicting the claim that a present-but-unmatched
SNP yields a null tag and null text. -/
theorem C2_counterexample :
    (Carrier.analyze_carrier_snp "rs334".data rs334Info genomeCC).found = true ∧
    carrierMatch rs334Info.interpretation "CC".data =
      (none : Option (List Char × List Char)) ∧
    (Carrier.analyze_carrier_snp "rs334".data rs334Info genomeCC).carrier_status =
      some "normal".data ∧
    (Carrier.analyze_carrier_snp "rs334".data rs334Info genomeCC).interpretation =
      some "Риск-аллель не обнаружен".data := by
  decide

/-- C2 amended: for `analyze_snp` of health_analysis.py the claim holds
as stated: found iff the id is a genome key; tag null iff text null
iff the SNP was absent or unmatched in all three forms.  For
`analyze_carriers` of carrier_status_analysis.py the fallback always
fills the status and text of a present SNP, so there tag and text are
null exactly when the SNP is absent. -/
theorem C2_amended_invariant (snp_id : List Char) (hinfo : Health.SnpInfo)
    (cinfo : Carrier.SnpInfo) (genome : Genome) :
    ((Health.analyze_snp snp_id hinfo genome).found = true ↔
      (genome snp_id).isSome = true) ∧
    ((Health.analyze_snp snp_id hinfo genome).risk_level = none ↔
      (Health.analyze_snp snp_id hinfo genome).interpretation = none) ∧
    ((Health.analyze_snp snp_id hinfo genome).interpretation = none ↔
      (genome snp_id = none ∨ ∃ r, genome snp_id = some r ∧
        healthMatch hinfo.interpretation r.genotype = none)) ∧
    ((Carrier.analyze_carrier_snp snp_id cinfo genome).found = true ↔
      (genome snp_id).isSome = true) ∧
    ((Carrier.analyze_carrier_snp snp_id cinfo genome).carrier_status = none ↔
      (Carrier.analyze_carrier_snp snp_id cinfo genome).interpretation = none) ∧
    ((Carrier.analyze_carrier_snp snp_id cinfo genome).interpretation = none ↔
      genome snp_id = none) := by
  cases hg : genome snp_id with
  | none =>
    refine ⟨?_, ?_, ?_, ?_, ?_, ?_⟩ <;>
      simp [Health.analyze_snp, Carrier.analyze_carrier_snp, hg]
  | some r =>
    refine ⟨?_, ?_, ?_, ?_, ?_, ?_⟩
    · simp [Health.analyze_snp, hg]
    · simp [Health.analyze_snp, hg, Option.map_eq_none']
    · simp [Health.analyze_snp, hg, Option.map_eq_none']
    · cases hm : carrierMatch cinfo.interpretation r.genotype with
      | none =>
        simp only [Carrier.analyze_carrier_snp, hg, hm]
        split_ifs <;> simp [Carrier.foundBase]
      | some st =>
        simp [Carrier.analyze_carrier_snp, Carrier.foundBase, hg, hm]
    · cases hm : carrierMatch cinfo.interpretation r.genotype with
      | none =>
        simp only [Carrier.analyze_carrier_snp, hg, hm]
        split_ifs <;> simp [Carrier.foundBase]
      | some st =>
        simp [Carrier.analyze_carrier_snp, Carrier.foundBase, hg, hm]
    · cases hm : carrierMatch cinfo.interpretation r.genotype with
      | none =>
        simp only [Carrier.analyze_carrier_snp, hg, hm]
        split_ifs <;> simp [Carrier.foundBase]
      | some st =>
        simp [Carrier.analyze_carrier_snp, Carrier.foundBase, hg, hm]

/-- C5 counterexample: on a line with five tab-separated fields the
loader stores fields 2-4 (`b`, `c`, `d`), not the last three fields
(`c`, `d`, `e`), so the claim's description of the stored record is
wrong for lines with more than four fields. -/
theorem C5_counterexample :
    splitTab (strip lineFive) =
      ["a".data, "b".data, "c".data, "d".data, "e".data] ∧
    load_genome [lineFive] "a".data =
      some { chromosome := "b".data, position := "c".data, genotype := "d".data } ∧
    ({ chromosome := "b".data, position := "c".data, genotype := "d".data } : GenomeRecord) ≠
      { chromosome := "c".data, position := "d".data, genotype := "e".data } := by
  decide

/-- C5 amended: the loader skips, silently, every line starting with
`#` and every line whose stripped form has fewer than 4 tab-separated
fields, and such lines leave the mapping unchanged; every other line
contributes the entry mapping its first field to the record of fields
2, 3 and 4 (chromosome, position, genotype). -/
theorem C5_amended_loader :
    (∀ line lines g,
      line.head? = some '#' ∨ (splitTab (strip line)).length < 4 →
      loadGenomeFrom g (line :: lines) = loadGenomeFrom g lines) ∧
    (∀ line f1 f2 f3 f4 rest,
      line.head? ≠ some '#' →
      splitTab (strip line) = f1 :: f2 :: f3 :: f4 :: rest →
      parseLine line = some (f1, { chromosome := f2, position := f3, genotype := f4 }) ∧
      ∀ g lines, loadGenomeFrom g (line :: lines) =
        loadGenomeFrom (dictUpdate g f1
          { chromosome := f2, position := f3, genotype := f4 }) lines) := by
  constructor
  · intro line lines g h
    exact loadGenomeFrom_skip g line lines ((parseLine_eq_none_iff line).mpr h)
  · intro line f1 f2 f3 f4 rest hh hsp
    have hp : parseLine line =
        some (f1, { chromosome := f2, position := f3, genotype := f4 }) :=
      parseLine_of_fields line f1 f2 f3 f4 rest hh hsp
    refine ⟨hp, ?_⟩
    intro g lines
    rw [loadGenomeFrom_cons]
    unfold loadStep
    rw [hp]

/-- C5 witness: the comment line is skipped and leaves the load
unchanged, and the well-formed rs4680 line parses to its first field
and the record of fields 2-4. -/
theorem C5_witness :
    (lineHash.head? = some '#' ∨ (splitTab (strip lineHash)).length < 4) ∧
    loadGenomeFrom emptyGenome (lineHash :: [lineGood]) =
      loadGenomeFrom emptyGenome [lineGood] ∧
    lineGood.head? ≠ some '#' ∧
    parseLine lineGood = some ("rs4680".data,
      { chromosome := "chr22".data, position := "19951271".data, genotype := "AG".data }) :=
  ⟨by decide,
   C5_amended_loader.1 lineHash [lineGood] emptyGenome (by decide),
   by decide,
   (C5_amended_loader.2 lineGood "rs4680".data "chr22".data "19951271".data
      "AG".data [] (by decide) (by decide)).1⟩

/-- C8: when several non-skipped lines share an id, the mapping holds
the record of the last such line: if `line` parses to `(id, r)` and no
later line parses to the same id, the loaded genome maps `id` to
`r`. -/
theorem C8_last_line_wins (pre post : List (List Char)) (line : List Char)
    (id : List Char) (r : GenomeRecord)
    (hp : parseLine line = some (id, r))
    (hpost : ∀ l ∈ post, ∀ r', parseLine l ≠ some (id, r')) :
    load_genome (pre ++ line :: post) id = some r := by
  unfold load_genome
  rw [show pre ++ line :: post = (pre ++ [line]) ++ post by simp]
  unfold loadGenomeFrom
  rw [List.foldl_append]
  have hstep : loadStep (List.foldl loadStep emptyGenome pre) line id = some r := by
    unfold loadStep
    rw [hp]
    exact if_pos rfl
  have h1 : List.foldl loadStep emptyGenome (pre ++ [line]) id = some r := by
    rw [List.foldl_append]
    exact hstep
  calc List.foldl loadStep (List.foldl loadStep emptyGenome (pre ++ [line])) post id
      = List.foldl loadStep emptyGenome (pre ++ [line]) id :=
        loadGenomeFrom_untouched _ post id hpost
    _ = some r := h1

/-- C8 witness: two lines for rs1; the loaded genome holds the record
of the second. -/
theorem C8_witness :
    parseLine lineCC = some ("rs1".data,
      { chromosome := "chr1".data, position := "100".data, genotype := "CC".data }) ∧
    load_genome [lineAA, lineCC] "rs1".data =
      some { chromosome := "chr1".data, position := "100".data, genotype := "CC".data } :=
  ⟨by decide,
   C8_last_line_wins [lineAA] [] lineCC "rs1".data
     { chromosome := "chr1".data, position := "100".data, genotype := "CC".data }
     (by decide) (by intro l hl r' h; exact absurd hl (List.not_mem_nil l))⟩

/-- C6: the detailed-results table renders exactly one row per Finding
in list order, and the row of every found Finding with non-null
interpretation text contains that text verbatim. -/
theorem C6_report_rows (rs : List Health.Finding) (i : Nat) (r : Health.Finding)
    (t : List Char) (hr : rs[i]? = some r) (hf : r.found = true)
    (ht : r.interpretation = some t) :
    (Health.renderRows rs).length = rs.length ∧
    ∃ a b, (Health.renderRows rs)[i]? = some (a ++ t ++ b) := by
  have hmap : (Health.renderRows rs)[i]? = some (Health.renderRow r) := by
    unfold Health.renderRows
    rw [List.getElem?_map, hr]
    rfl
  constructor
  · unfold Health.renderRows
    simp
  · by_cases hte : t = []
    · refine ⟨Health.renderRow r, [], ?_⟩
      rw [hmap, hte]
      simp
    · have hpy : Health.pyOr r.interpretation "Нет данных".data = t := by
        rw [ht]
        unfold Health.pyOr
        exact if_neg hte
      refine ⟨"| ".data ++ r.snp_id ++ " | ".data ++ r.gene ++ " | **".data ++
        Health.optStr r.genotype ++ "** | ".data ++
        Health.pyOr r.risk_level "н/д".data ++ " | ".data, " |".data, ?_⟩
      rw [hmap]
      unfold Health.renderRow
      rw [if_pos hf, hpy]

/-- C6 witness: the single-row report for a found rs4680 Finding has
one row and that row contains the interpretation text. -/
theorem C6_witness :
    (Health.renderRows [findingW]).length = [findingW].length ∧
    ∃ a b, (Health.renderRows [findingW])[0]? = some (a ++ "Val/Met".data ++ b) :=
  C6_report_rows [findingW] 0 findingW "Val/Met".data rfl rfl rfl

/-- C7: the per-SNP analyses of health_analysis.py and
sleep_chronotype_analysis.py are pure functions of the genome mapping
and the interpretation table: two runs on equal inputs produce
identical Findings. -/
theorem C7_deterministic (id1 id2 : List Char) (i1 i2 : Health.SnpInfo)
    (s1 s2 : Sleep.SnpInfo) (g1 g2 : Genome)
    (hid : id1 = id2) (hi : i1 = i2) (hs : s1 = s2) (hg : g1 = g2) :
    Health.analyze_snp id1 i1 g1 = Health.analyze_snp id2 i2 g2 ∧
    Sleep.analyze_snp id1 s1 g1 = Sleep.analyze_snp id2 s2 g2 := by
  subst hid
  subst hi
  subst hs
  subst hg
  exact ⟨rfl, rfl⟩

/-- C7 witness: two runs of both analyses on the rs4680 example inputs
give identical Findings. -/
theorem C7_witness :
    Health.analyze_snp "rs4680".data healthInfoW genomeW =
      Health.analyze_snp "rs4680".data healthInfoW genomeW ∧
    Sleep.analyze_snp "rs4680".data sleepInfoW genomeW =
      Sleep.analyze_snp "rs4680".data sleepInfoW genomeW :=
  C7_deterministic "rs4680".data "rs4680".data healthInfoW healthInfoW
    sleepInfoW sleepInfoW genomeW genomeW rfl rfl rfl rfl

lemma carrier_status_characterization (snp_id : List Char) (info : Carrier.SnpInfo)
    (genome : Genome) (r : GenomeRecord) (hg : genome snp_id = some r) :
    (Carrier.analyze_carrier_snp snp_id info genome).carrier_status =
      (match carrierMatch info.interpretation r.genotype with
       | some st => some st.1
       | none =>
         if r.genotype = "--".data ∨
             containsSub "del".data (r.genotype.map Char.toLower) = true then
           some "possible_carrier".data
         else if containsSub info.risk_allele r.genotype then
           if countSub info.risk_allele r.genotype = 2 then some "affected".data
           else some "carrier".data
         else some "normal".data) ∧
    (Carrier.analyze_carrier_snp snp_id info genome).interpretation ≠ none := by
  cases hm : carrierMatch info.interpretation r.genotype with
  | some st =>
    constructor
    · simp [Carrier.analyze_carrier_snp, hg, hm]
    · simp [Carrier.analyze_carrier_snp, hg, hm]
  | none =>
    constructor
    · simp only [Carrier.analyze_carrier_snp, hg, hm]
      split_ifs <;> rfl
    · simp only [Carrier.analyze_carrier_snp, hg, hm]
      split_ifs <;> simp

/-- C9 counterexample: with rs334 present as `TTT`, the risk allele `T`
occurs three times (neither once nor twice), yet the fallback assigns
`carrier`, not the `normal` that the claim's "carrier if it occurs
once, normal otherwise" reading predicts. -/
theorem C9_counterexample :
    (Carrier.analyze_carrier_snp "rs334".data rs334Info genomeTTT).found = true ∧
    carrierMatch rs334Info.interpretation "TTT".data =
      (none : Option (List Char × List Char)) ∧
    countSub "T".data "TTT".data = 3 ∧
    (Carrier.analyze_carrier_snp "rs334".data rs334Info genomeTTT).carrier_status =
      some "carrier".data ∧
    some "carrier".data ≠ some "normal".data := by
  decide

/-- C9 amended: every present SNP receives a non-null carrier status
and interpretation; when the three-string lookup fails, the fallback
assigns `possible_carrier` for `--` or a `del` substring of the
lowercased genotype, `affected` when the risk allele occurs exactly
twice, `carrier` when it occurs any other positive number of times,
and `normal` when it does not occur, so the null-tag terminal state is
unreachable for found SNPs in this script. -/
theorem C9_amended_fallback (snp_id : List Char) (info : Carrier.SnpInfo)
    (genome : Genome) (r : GenomeRecord) (hg : genome snp_id = some r) :
    ((Carrier.analyze_carrier_snp snp_id info genome).carrier_status ≠ none ∧
     (Carrier.analyze_carrier_snp snp_id info genome).interpretation ≠ none) ∧
    (carrierMatch info.interpretation r.genotype = none →
      ((r.genotype = "--".data ∨
          containsSub "del".data (r.genotype.map Char.toLower) = true) →
        (Carrier.analyze_carrier_snp snp_id info genome).carrier_status =
          some "possible_carrier".data) ∧
      (¬(r.genotype = "--".data ∨
          containsSub "del".data (r.genotype.map Char.toLower) = true) →
        containsSub info.risk_allele r.genotype = true →
        countSub info.risk_allele r.genotype = 2 →
        (Carrier.analyze_carrier_snp snp_id info genome).carrier_status =
          some "affected".data) ∧
      (¬(r.genotype = "--".data ∨
          containsSub "del".data (r.genotype.map Char.toLower) = true) →
        containsSub info.risk_allele r.genotype = true →
        countSub info.risk_allele r.genotype ≠ 2 →
        (Carrier.analyze_carrier_snp snp_id info genome).carrier_status =
          some "carrier".data) ∧
      (¬(r.genotype = "--".data ∨
          containsSub "del".data (r.genotype.map Char.toLower) = true) →
        containsSub info.risk_allele r.genotype = false →
        (Carrier.analyze_carrier_snp snp_id info genome).carrier_status =
          some "normal".data)) := by
  obtain ⟨hchar, hne⟩ := carrier_status_characterization snp_id info genome r hg
  constructor
  · constructor
    · rw [hchar]
      cases hm : carrierMatch info.interpretation r.genotype with
      | some st => simp
      | none => split_ifs <;> simp
    · exact hne
  · intro hm
    rw [hm] at hchar
    refine ⟨?_, ?_, ?_, ?_⟩
    · intro h1
      rw [hchar, if_pos h1]
    · intro h1 h2 h3
      rw [hchar, if_neg h1, if_pos h2, if_pos h3]
    · intro h1 h2 h3
      rw [hchar, if_neg h1, if_pos h2, if_neg h3]
    · intro h1 h2
      rw [hchar, if_neg h1]
      rw [if_neg (by rw [h2]; exact Bool.false_ne_true)]

/-- C9 witness: rs334 present with genotype `CC` takes the `normal`
fallback branch with a non-null status. -/
theorem C9_witness :
    genomeCC "rs334".data =
      some { chromosome := "11".data, position := "5248232".data, genotype := "CC".data } ∧
    ((Carrier.analyze_carrier_snp "rs334".data rs334Info genomeCC).carrier_status ≠ none ∧
     (Carrier.analyze_carrier_snp "rs334".data rs334Info genomeCC).interpretation ≠ none) :=
  ⟨by decide,
   (C9_amended_fallback "rs334".data rs334Info genomeCC
      { chromosome := "11".data, position := "5248232".data, genotype := "CC".data }
      (by decide)).1⟩

/-- C10: `calculate_vo2max_potential` returns `None` when no endurance
Finding is found with a non-null phenotype; otherwise (given that
phenotype strings are never empty, as in all the static tables) it
divides by the non-zero `max_score` of 3 per counted marker and
returns the percentage `score / max_score * 100`, where `score` sums
the weights high = 3, moderate = 2, low = 1 and 0 for anything
else. -/
theorem C10_vo2max (endurance : List Sports.Finding)
    (hne : ∀ r ∈ endurance, r.phenotype ≠ some []) :
    ((∀ r ∈ endurance, ¬(r.found = true ∧ r.phenotype ≠ none)) →
      Sports.calculate_vo2max_potential endurance = none) ∧
    ((∃ r ∈ endurance, r.found = true ∧ r.phenotype ≠ none) →
      ∃ v, Sports.calculate_vo2max_potential endurance = some v ∧
        v.markers_found =
          (endurance.filter fun r => r.found && Sports.truthy r.phenotype).length ∧
        v.max_score = 3 * v.markers_found ∧
        0 < v.max_score ∧
        v.score = ((endurance.filter fun r => r.found && Sports.truthy r.phenotype).map
            fun r => Sports.scoring (Option.getD r.phenotype [])).sum ∧
        v.percentage = (v.score : Rat) / (v.max_score : Rat) * 100) := by
  constructor
  · intro h
    have hfil : endurance.filter (fun r => r.found && Sports.truthy r.phenotype) = [] := by
      rw [List.filter_eq_nil_iff]
      intro r hr hb
      rw [Bool.and_eq_true] at hb
      obtain ⟨hf, ht⟩ := hb
      apply h r hr
      refine ⟨hf, ?_⟩
      intro hnone
      rw [hnone] at ht
      exact Bool.false_ne_true ht
    unfold Sports.calculate_vo2max_potential
    rw [hfil]
    rfl
  · rintro ⟨r0, hr0, hf0, hp0⟩
    have hp : (r0.found && Sports.truthy r0.phenotype) = true := by
      rw [Bool.and_eq_true]
      refine ⟨hf0, ?_⟩
      cases hph : r0.phenotype with
      | none => exact absurd hph hp0
      | some s =>
        have hsne : s ≠ [] := by
          intro hse
          exact hne r0 hr0 (by rw [hph, hse])
        show (!s.isEmpty) = true
        cases s with
        | nil => exact absurd rfl hsne
        | cons c cs => rfl
    have hmem : r0 ∈ endurance.filter (fun r => r.found && Sports.truthy r.phenotype) :=
      List.mem_filter.mpr ⟨hr0, hp⟩
    have hlen : (endurance.filter (fun r => r.found && Sports.truthy r.phenotype)).length ≠ 0 := by
      intro h0
      rw [List.length_eq_zero] at h0
      rw [h0] at hmem
      exact absurd hmem (List.not_mem_nil r0)
    simp only [Sports.calculate_vo2max_potential]
    rw [if_neg hlen]
    split_ifs <;>
      refine ⟨_, rfl, rfl, rfl, ?_, rfl, rfl⟩ <;>
      · show 0 < 3 * (endurance.filter fun r => r.found && Sports.truthy r.phenotype).length
        omega

/-- C10 witness: on a one-marker endurance list with a `high`
phenotype, the calculation returns a result with max_score 3 and the
percentage formula. -/
theorem C10_witness :
    (∀ r ∈ enduranceW, r.phenotype ≠ some []) ∧
    (((∀ r ∈ enduranceW, ¬(r.found = true ∧ r.phenotype ≠ none)) →
        Sports.calculate_vo2max_potential enduranceW = none) ∧
      ((∃ r ∈ enduranceW, r.found = true ∧ r.phenotype ≠ none) →
        ∃ v, Sports.calculate_vo2max_potential enduranceW = some v ∧
          v.markers_found =
            (enduranceW.filter fun r => r.found && Sports.truthy r.phenotype).length ∧
          v.max_score = 3 * v.markers_found ∧
          0 < v.max_score ∧
          v.score = ((enduranceW.filter fun r => r.found && Sports.truthy r.phenotype).map
              fun r => Sports.scoring (Option.getD r.phenotype [])).sum ∧
          v.percentage = (v.score : Rat) / (v.max_score : Rat) * 100)) :=
  ⟨by decide, C10_vo2max enduranceW (by decide)⟩
